import Mathlib

/-!
Verification of the `cmanta` pybind11 binding
(src/python/basecam/examples/mantaCam/mantacam/cmanta.cpp).

The binding registers, in a module named `cmanta`, a single class
`VimbaSystem` held by `std::unique_ptr<VimbaSystem, py::nodelete>`,
with exactly two bound methods, each a one-line delegation into the
vendor SDK:

    .def ("GetInstance", &VimbaSystem::GetInstance)
    .def ("GetCameras",  &VimbaSystem::GetCameras)

We embed the registration data (classes, holders, methods, method
bodies) as Lean structures, and give a small operational semantics
for running a bound method body against an abstract vendor-SDK model,
so that delegation, error propagation, state framing and the no-op
deleter can be stated and proved.
-/

namespace Cmanta

/-- Primitive actions a bound method body may perform.  The binding's
bodies consist only of `callSDK` (the one-line delegations); the other
constructors exist so that the absence of repository-level state access
and of synchronization, blocking or cancellation logic is expressible. -/
inductive Action where
  | callSDK (fn : String)
  | readRepoVar (v : String)
  | writeRepoVar (v : String) (val : Nat)
  | acquireLock (l : String)
  | waitOn (w : String)
  | cancelOp (c : String)
  deriving DecidableEq, Repr

/-- Whether the binding registered a method with `.def` (an ordinary
method, dispatched on a receiver object) or with `.def_static`. -/
inductive MethodKind where
  | ordinary
  | staticMethod
  deriving DecidableEq, Repr

/-- One `.def(...)` entry of a `py::class_` registration. -/
structure MethodReg where
  name : String
  kind : MethodKind
  /-- The C++ return type of the delegated SDK function, as declared by
  the vendor SDK's VimbaCPP header: `GetInstance` returns
  `VimbaSystem&`, `GetCameras` returns a `VmbErrorType` error code. -/
  retType : String
  /-- The body of the generated wrapper: what the binding does when the
  method is invoked. -/
  body : List Action
  deriving DecidableEq, Repr

/-- The deleter of the holder type `std::unique_ptr<T, D>` chosen by the
registration: `std::default_delete` invokes the destructor of the held
object, `py::nodelete` does nothing. -/
inductive DeleterKind where
  | defaultDelete
  | nodelete
  deriving DecidableEq, Repr

/-- One `py::class_<...>` registration of the module. -/
structure ClassReg where
  name : String
  deleter : DeleterKind
  /-- Exported constructors (`py::init<...>` entries); the binding
  defines none. -/
  ctors : List (List Action)
  methods : List MethodReg
  /-- Exported attributes (`def_readwrite` / `def_property` entries);
  the binding defines none. -/
  attrs : List String
  deriving DecidableEq, Repr

/-- A `PYBIND11_MODULE` registration. -/
structure ModuleReg where
  name : String
  classes : List ClassReg
  deriving DecidableEq, Repr

/-- Line 25 of cmanta.cpp: `.def ("GetInstance", &VimbaSystem::GetInstance)`,
a one-line delegation to the vendor SDK's instance retrieval. -/
def getInstanceBinding : MethodReg :=
  { name := "GetInstance"
  , kind := MethodKind.ordinary
  , retType := "VimbaSystem&"
  , body := [Action.callSDK "VimbaSystem::GetInstance"] }

/-- Line 26 of cmanta.cpp: `.def ("GetCameras", &VimbaSystem::GetCameras)`,
a one-line delegation to the vendor SDK's camera enumeration. -/
def getCamerasBinding : MethodReg :=
  { name := "GetCameras"
  , kind := MethodKind.ordinary
  , retType := "VmbErrorType"
  , body := [Action.callSDK "VimbaSystem::GetCameras"] }

/-- Line 24 of cmanta.cpp: the `py::class_<VimbaSystem,
std::unique_ptr<VimbaSystem, py::nodelete>>(module, "VimbaSystem")`
registration with its two `.def` entries and nothing else. -/
def vimbaSystemClass : ClassReg :=
  { name := "VimbaSystem"
  , deleter := DeleterKind.nodelete
  , ctors := []
  , methods := [getInstanceBinding, getCamerasBinding]
  , attrs := [] }

/-- Lines 23 to 27 of cmanta.cpp: the `PYBIND11_MODULE(cmanta, module)`
block, whose only registration is the `VimbaSystem` class. -/
def cmanta : ModuleReg :=
  { name := "cmanta"
  , classes := [vimbaSystemClass] }

/-- An abstract model of the vendor SDK: an opaque state of type `σ`
and, for every SDK entry point (named by a string), a call that returns
a result of type `ρ` and a successor state.  The binding never inspects
either. -/
structure SDKModel (σ ρ : Type) where
  call : String → σ → ρ × σ

/-- The observable state of a run of a bound method: the repository's
own variable store (the repository defines none, but the semantics
tracks it so that framing can be proved), the vendor SDK's state, the
binding-held locks, the number of waits and cancellations the binding
performed, and the value the wrapper will return. -/
structure RunState (σ ρ : Type) where
  repoStore : List (String × Nat)
  sdkState : σ
  locksHeld : List String
  waits : Nat
  cancels : Nat
  result : Option ρ

/-- Effect of one primitive action on the run state. -/
def stepAction {σ ρ : Type} (sdk : SDKModel σ ρ) (st : RunState σ ρ) :
    Action → RunState σ ρ
  | Action.callSDK fn =>
      let rs := sdk.call fn st.sdkState
      { st with sdkState := rs.2, result := some rs.1 }
  | Action.readRepoVar _ => st
  | Action.writeRepoVar v val => { st with repoStore := (v, val) :: st.repoStore }
  | Action.acquireLock l => { st with locksHeld := l :: st.locksHeld }
  | Action.waitOn _ => { st with waits := st.waits + 1 }
  | Action.cancelOp _ => { st with cancels := st.cancels + 1 }

/-- Run a method body: execute its actions in order. -/
def runBody {σ ρ : Type} (sdk : SDKModel σ ρ) (st : RunState σ ρ)
    (body : List Action) : RunState σ ρ :=
  body.foldl (stepAction sdk) st

/-- Invoke a bound method from an arbitrary pre-state. -/
def runMethod {σ ρ : Type} (sdk : SDKModel σ ρ) (m : MethodReg)
    (st : RunState σ ρ) : RunState σ ρ :=
  runBody sdk st m.body

/-- Modelled from the spec: "a function that calls GetInstance and
returns it" — the direct, unmodified forward of the vendor SDK's
instance retrieval. -/
def specForwardGetInstance {σ ρ : Type} (sdk : SDKModel σ ρ) (s : σ) : ρ × σ :=
  sdk.call "VimbaSystem::GetInstance" s

/-- Modelled from the spec: "a function that calls GetCameras and
returns it" — the direct, unmodified forward of the vendor SDK's
camera enumeration. -/
def specForwardGetCameras {σ ρ : Type} (sdk : SDKModel σ ρ) (s : σ) : ρ × σ :=
  sdk.call "VimbaSystem::GetCameras" s

/-- Whether an action touches repository-defined state. -/
def touchesRepoState : Action → Bool
  | Action.readRepoVar _ => true
  | Action.writeRepoVar _ _ => true
  | _ => false

/-- Whether an action is synchronization, blocking or cancellation
logic of the binding's own. -/
def isSyncAction : Action → Bool
  | Action.acquireLock _ => true
  | Action.waitOn _ => true
  | Action.cancelOp _ => true
  | _ => false

/-- Caller-side lifecycle events on the holder of a bound object:
acquiring a reference, releasing one (which runs the holder's deleter),
or calling a bound method. -/
inductive RefEvent where
  | acquireRef
  | releaseRef
  | callBound (m : String)
  deriving DecidableEq, Repr

/-- Lifecycle state: the count of live caller-side references and the
names of objects whose destructor has been invoked by the binding. -/
structure LifeState where
  liveRefs : Nat
  destroyed : List String
  deriving DecidableEq, Repr

/-- Running the holder's deleter on the held object:
`std::default_delete` invokes the object's destructor, `py::nodelete`
is a no-op. -/
def runDeleter : DeleterKind → List String → String → List String
  | DeleterKind.defaultDelete, ds, o => o :: ds
  | DeleterKind.nodelete, ds, _ => ds

/-- Effect of one lifecycle event under a class registration's holder. -/
def stepRef (c : ClassReg) (st : LifeState) : RefEvent → LifeState
  | RefEvent.acquireRef => { st with liveRefs := st.liveRefs + 1 }
  | RefEvent.releaseRef =>
      { liveRefs := st.liveRefs - 1
      , destroyed := runDeleter c.deleter st.destroyed c.name }
  | RefEvent.callBound _ => st

/-- Run a whole sequence of lifecycle events. -/
def runEvents (c : ClassReg) (st : LifeState) (es : List RefEvent) : LifeState :=
  es.foldl (stepRef c) st

/-- Attempting to construct an object of a registered class from the
calling environment: with no exported constructor, pybind11 raises a
TypeError. -/
def pyNew (c : ClassReg) : Except String Unit :=
  match c.ctors with
  | [] => Except.error "TypeError: no constructor defined"
  | _ => Except.ok ()

/-- Invoking a bound method given an optional receiver object: a method
registered with `.def` is dispatched on a receiver, so invoking it on
the class itself without an instance fails. -/
def invokeWith (m : MethodReg) (receiver : Option Unit) : Except String Unit :=
  match m.kind, receiver with
  | MethodKind.ordinary, none => Except.error "TypeError: missing receiver"
  | _, _ => Except.ok ()

end Cmanta

namespace Cmanta

/-- A concrete vendor-SDK model used to witness the framing theorems. -/
def natSDK : SDKModel Nat Nat := ⟨fun _ s => (0, s + 1)⟩

/-- A concrete vendor-SDK model whose instance retrieval always returns
the handle 42, used to witness the singleton theorem. -/
def singletonSDK : SDKModel Nat Nat := ⟨fun _ s => (42, s + 1)⟩

/-- A concrete pre-state for witnesses. -/
def st0 : RunState Nat Nat :=
  { repoStore := [], sdkState := 0, locksHeld := [], waits := 0, cancels := 0, result := none }

/-- A second, distinct concrete pre-state for witnesses. -/
def st1 : RunState Nat Nat :=
  { repoStore := [], sdkState := 5, locksHeld := [], waits := 0, cancels := 0, result := none }

/-- C1: each bound operation is an unmodified one-line delegation: for
every vendor-SDK model and every pre-state, running the bound
GetInstance (resp. GetCameras) returns exactly the result of the spec's
direct forward of the SDK call and leaves the SDK in exactly the state
that call produces, and each body is the single SDK call. -/
theorem C1_bound_ops_are_unmodified_delegations {σ ρ : Type}
    (sdk : SDKModel σ ρ) (st : RunState σ ρ) :
    (runMethod sdk getInstanceBinding st).result
        = some (specForwardGetInstance sdk st.sdkState).1 ∧
    (runMethod sdk getInstanceBinding st).sdkState
        = (specForwardGetInstance sdk st.sdkState).2 ∧
    (runMethod sdk getCamerasBinding st).result
        = some (specForwardGetCameras sdk st.sdkState).1 ∧
    (runMethod sdk getCamerasBinding st).sdkState
        = (specForwardGetCameras sdk st.sdkState).2 ∧
    getInstanceBinding.body = [Action.callSDK "VimbaSystem::GetInstance"] ∧
    getCamerasBinding.body = [Action.callSDK "VimbaSystem::GetCameras"] :=
  ⟨rfl, rfl, rfl, rfl, rfl, rfl⟩

/-- C2: the holder's deleter is `py::nodelete`, so for every sequence of
caller-side lifecycle events (reference acquisitions, reference
releases, method calls) the set of objects destroyed by the binding is
unchanged: the singleton's destructor is never invoked by the binding. -/
theorem C2_destructor_never_invoked (st : LifeState) (es : List RefEvent) :
    (runEvents vimbaSystemClass st es).destroyed = st.destroyed := by
  induction es generalizing st with
  | nil => rfl
  | cons e es ih =>
      have hstep : (stepRef vimbaSystemClass st e).destroyed = st.destroyed := by
        cases e <;> rfl
      show (runEvents vimbaSystemClass (stepRef vimbaSystemClass st e) es).destroyed
          = st.destroyed
      rw [ih, hstep]

/-- C3: for every vendor-SDK model whose results are `Except` values,
the bound operations return exactly the SDK's result, and in particular
a bound call yields an error value exactly when the SDK call does, with
the identical error. -/
theorem C3_errors_propagate_unmodified {σ ε α : Type}
    (sdk : SDKModel σ (Except ε α)) (st : RunState σ (Except ε α)) :
    ((runMethod sdk getInstanceBinding st).result
        = some (sdk.call "VimbaSystem::GetInstance" st.sdkState).1) ∧
    ((runMethod sdk getCamerasBinding st).result
        = some (sdk.call "VimbaSystem::GetCameras" st.sdkState).1) ∧
    (∀ e : ε, (runMethod sdk getInstanceBinding st).result = some (Except.error e)
        ↔ (sdk.call "VimbaSystem::GetInstance" st.sdkState).1 = Except.error e) ∧
    (∀ e : ε, (runMethod sdk getCamerasBinding st).result = some (Except.error e)
        ↔ (sdk.call "VimbaSystem::GetCameras" st.sdkState).1 = Except.error e) := by
  refine ⟨rfl, rfl, fun e => ?_, fun e => ?_⟩ <;> exact Option.some_inj

/-- C4: the module `cmanta` registers exactly one class, named
`VimbaSystem`, whose exported surface is exactly the two methods
`GetInstance` and `GetCameras`: no constructor, no attribute and no
other method is exported. -/
theorem C4_exactly_two_methods_exported :
    cmanta.name = "cmanta" ∧
    cmanta.classes = [vimbaSystemClass] ∧
    vimbaSystemClass.name = "VimbaSystem" ∧
    vimbaSystemClass.methods.map MethodReg.name = ["GetInstance", "GetCameras"] ∧
    vimbaSystemClass.ctors = [] ∧
    vimbaSystemClass.attrs = [] :=
  ⟨rfl, rfl, rfl, rfl, rfl, rfl⟩

/-- C5: the binding holds no state of its own: every bound method of
every registered class leaves the repository-level variable store
unchanged from every pre-state, and no action of any bound body reads
or writes a repository-defined variable. -/
theorem C5_no_repository_state {σ ρ : Type} (sdk : SDKModel σ ρ)
    (st : RunState σ ρ) (c : ClassReg) (m : MethodReg)
    (hc : c ∈ cmanta.classes) (hm : m ∈ c.methods) :
    (runMethod sdk m st).repoStore = st.repoStore ∧
    ∀ a ∈ m.body, touchesRepoState a = false := by
  have hc' : c = vimbaSystemClass := by
    simpa [cmanta] using hc
  subst hc'
  have hm' : m = getInstanceBinding ∨ m = getCamerasBinding := by
    simpa [vimbaSystemClass] using hm
  rcases hm' with h | h <;> subst h <;> exact ⟨rfl, by decide⟩

/-- Witness for C5 at the concrete model `natSDK`, pre-state `st0`,
class `VimbaSystem` and method `GetInstance`. -/
theorem C5_no_repository_state_witness :
    (runMethod natSDK getInstanceBinding st0).repoStore = st0.repoStore ∧
    ∀ a ∈ getInstanceBinding.body, touchesRepoState a = false :=
  C5_no_repository_state natSDK st0 vimbaSystemClass getInstanceBinding
    (by simp [cmanta]) (by simp [vimbaSystemClass])

/-- C6: GetInstance is singleton retrieval: if the vendor SDK's
instance retrieval returns one fixed handle regardless of SDK state,
then any two calls to the bound GetInstance, from any two pre-states,
return that same handle. -/
theorem C6_getinstance_is_singleton_retrieval {σ ρ : Type}
    (sdk : SDKModel σ ρ) (inst : ρ)
    (h : ∀ s : σ, (sdk.call "VimbaSystem::GetInstance" s).1 = inst)
    (sa sb : RunState σ ρ) :
    (runMethod sdk getInstanceBinding sa).result = some inst ∧
    (runMethod sdk getInstanceBinding sb).result = some inst := by
  constructor <;>
    · show some ((sdk.call "VimbaSystem::GetInstance" _).1) = some inst
      rw [h]

/-- Witness for C6 at the concrete model `singletonSDK`, whose instance
retrieval always returns the handle 42, and two distinct pre-states. -/
theorem C6_getinstance_is_singleton_retrieval_witness :
    (runMethod singletonSDK getInstanceBinding st0).result = some 42 ∧
    (runMethod singletonSDK getInstanceBinding st1).result = some 42 :=
  C6_getinstance_is_singleton_retrieval singletonSDK 42 (fun _ => rfl) st0 st1

/-- C7: no bound method of any registered class performs
synchronization, blocking or cancellation of its own: from every
pre-state, the held locks, wait count and cancellation count are
unchanged, and no action of any bound body is a lock acquisition, a
wait or a cancellation. -/
theorem C7_no_sync_blocking_cancellation {σ ρ : Type} (sdk : SDKModel σ ρ)
    (st : RunState σ ρ) (c : ClassReg) (m : MethodReg)
    (hc : c ∈ cmanta.classes) (hm : m ∈ c.methods) :
    (runMethod sdk m st).locksHeld = st.locksHeld ∧
    (runMethod sdk m st).waits = st.waits ∧
    (runMethod sdk m st).cancels = st.cancels ∧
    ∀ a ∈ m.body, isSyncAction a = false := by
  have hc' : c = vimbaSystemClass := by
    simpa [cmanta] using hc
  subst hc'
  have hm' : m = getInstanceBinding ∨ m = getCamerasBinding := by
    simpa [vimbaSystemClass] using hm
  rcases hm' with h | h <;> subst h <;> exact ⟨rfl, rfl, rfl, by decide⟩

/-- Witness for C7 at the concrete model `natSDK`, pre-state `st1`,
class `VimbaSystem` and method `GetCameras`. -/
theorem C7_no_sync_blocking_cancellation_witness :
    (runMethod natSDK getCamerasBinding st1).locksHeld = st1.locksHeld ∧
    (runMethod natSDK getCamerasBinding st1).waits = st1.waits ∧
    (runMethod natSDK getCamerasBinding st1).cancels = st1.cancels ∧
    ∀ a ∈ getCamerasBinding.body, isSyncAction a = false :=
  C7_no_sync_blocking_cancellation natSDK st1 vimbaSystemClass getCamerasBinding
    (by simp [cmanta]) (by simp [vimbaSystemClass])

/-- C8: the binding exports no constructor for `VimbaSystem`, so direct
instantiation from the calling environment fails with a TypeError, and
the only bound method returning a `VimbaSystem` handle is GetInstance. -/
theorem C8_no_constructor_exported :
    pyNew vimbaSystemClass = Except.error "TypeError: no constructor defined" ∧
    (vimbaSystemClass.methods.filter
        (fun m => m.retType == "VimbaSystem&")).map MethodReg.name
      = ["GetInstance"] :=
  ⟨rfl, by decide⟩

/-- C9: GetInstance is registered with `.def`, an ordinary
receiver-dispatched method rather than a static one: invoking it
without a receiver fails with a TypeError, while invoking it on an
existing instance succeeds. -/
theorem C9_getinstance_is_receiver_dispatched :
    getInstanceBinding.kind = MethodKind.ordinary ∧
    invokeWith getInstanceBinding none = Except.error "TypeError: missing receiver" ∧
    invokeWith getInstanceBinding (some ()) = Except.ok () :=
  ⟨rfl, rfl, rfl⟩

/-- C10: `VimbaSystem` is the only type the module registers: the list
of registered class names is exactly `["VimbaSystem"]`, so no camera,
camera-pointer or camera-list type is exported by `cmanta`. -/
theorem C10_only_vimbasystem_registered :
    cmanta.classes.map ClassReg.name = ["VimbaSystem"] ∧
    cmanta.classes.all (fun c => c.name == "VimbaSystem") = true ∧
    (cmanta.classes.map ClassReg.name).contains "Camera" = false ∧
    (cmanta.classes.map ClassReg.name).contains "CameraPtrVector" = false ∧
    (cmanta.classes.map ClassReg.name).contains "CameraPtr" = false :=
  ⟨rfl, by decide, by decide, by decide, by decide⟩

end Cmanta
